import Mathlib

/-!
Verification of the azure-openai-benchmark core (statsaggregator.py,
oairequester.py, asynchttpexecuter.py) against its natural-language
specification.

Shallow-embedding conventions used throughout this development:
* Python `float` timestamps and metric values are modelled as `Int`
  (interpreted in milliseconds where a unit matters); `None` is `Option`.
* Python exceptions are the inductive `PyErr`; an operation that can raise
  returns `Except PyErr`.  A `try/except` block that keeps the mutations
  performed before the exception is modelled by threading the partial state
  explicitly.
* Python lists are Lean `List`s; `list.append` is `++ [x]`, `list.pop(0)`
  drops the head, `list[-1]` is `List.getLast?`.
-/

namespace Bench

/-- Python exceptions raised by the modelled code paths. -/
inductive PyErr where
  /-- arithmetic or comparison on `None` -/
  | typeError
  /-- Python `list[-1]` on an empty list -/
  | indexError
  /-- missing dictionary key, e.g. `body["messages"]` -/
  | keyError
  /-- missing attribute, e.g. `e.response` on a connection error -/
  | attributeError
  /-- An `aiohttp.ClientResponseError` carrying an HTTP status, raised by `raise_for_status()` -/
  | clientResponseError (status : Int)
  /-- an `aiohttp.ClientError` that carries no response (connection/payload errors) -/
  | clientConnectionError
  /-- The `asyncio.TimeoutError` exception; not an `aiohttp.ClientError` -/
  | timeoutError
deriving DecidableEq

/-- One entry of `_Samples.samples`: `[0]` timestamp, `[1]` value
(statsaggregator.py line 21).  Either slot can hold Python `None`, because
`aggregate_request` keys every sample by `stats.request_start_time`, which is
`Optional[float]`. -/
abbrev Sample := Option Int × Option Int

/-- The `_Samples` container (statsaggregator.py lines 18-37). -/
structure Samples where
  samples : List Sample := []
deriving DecidableEq

/-- The method `_Samples._append` (statsaggregator.py lines 27-28). -/
def Samples.append (w : Samples) (timestamp value : Option Int) : Samples :=
  ⟨w.samples ++ [(timestamp, value)]⟩

/-- The loop of `_Samples._trim_oldest` (statsaggregator.py lines 23-25):
`while len(samples) > 0 and (time.time() - samples[0][0]) > duration: pop(0)`.
`now` stands for `time.time()`; subtracting `None` raises `TypeError`. -/
def trimOldest (now duration : Int) : List Sample → Except PyErr (List Sample)
  | [] => .ok []
  | (ts, v) :: rest =>
    match ts with
    | none => .error .typeError
    | some t =>
      if now - t > duration then trimOldest now duration rest
      else .ok ((some t, v) :: rest)

/-- The method `_Samples._trim_oldest` on the container. -/
def Samples.trim_oldest (now duration : Int) (w : Samples) : Except PyErr Samples :=
  (trimOldest now duration w.samples).map Samples.mk

/-- The `RequestStats` record (oairequester.py lines 23-38), with the constructor's
defaults. -/
structure RequestStats where
  request_start_time : Option Int := none
  response_status_code : Int := 0
  response_time : Option Int := none
  first_token_time : Option Int := none
  response_end_time : Option Int := none
  context_tokens : Int := 0
  generated_tokens : Option Int := none
  calls : Int := 0
  last_exception : Option PyErr := none
  input_messages : Option (List String) := none
  output_content : List (String × String) := []
deriving DecidableEq

/-- The dictionary produced by `RequestStats.as_dict` (oairequester.py lines
40-56).  A key absent from the dictionary (content keys when
`include_request_content` is false) is modelled as `none`. -/
structure RawRecord where
  request_start_time : Option Int
  response_status_code : Int
  response_time : Option Int
  first_token_time : Option Int
  response_end_time : Option Int
  context_tokens : Int
  generated_tokens : Option Int
  calls : Int
  input_messages : Option (List String)
  output_content : Option (List (String × String))
  last_exception : Option PyErr
deriving DecidableEq

/-- The method `RequestStats.as_dict` (oairequester.py lines 40-56). -/
def RequestStats.as_dict (s : RequestStats) (include_request_content : Bool) : RawRecord :=
  { request_start_time := s.request_start_time
    response_status_code := s.response_status_code
    response_time := s.response_time
    first_token_time := s.first_token_time
    response_end_time := s.response_end_time
    context_tokens := s.context_tokens
    generated_tokens := s.generated_tokens
    calls := s.calls
    input_messages := if include_request_content then s.input_messages else none
    output_content :=
      if include_request_content then
        (if s.output_content = [] then none else some s.output_content)
      else none
    last_exception := s.last_exception }

/-- Constructor parameters of `_StatsAggregator.__init__` (statsaggregator.py
lines 63-96). -/
structure AggConfig where
  clients : Int
  dump_duration : Int := 5
  window_duration : Int := 60
  expected_gen_tokens : Option Int := none
  json_output : Bool := false
  custom_label : Option String := none
  log_request_content : Bool := false
  network_latency_adjustment : Int := 0
deriving DecidableEq

/-- The class-level mutable containers of `_StatsAggregator`
(statsaggregator.py lines 52-61).  In Python these are class attributes:
`request_timestamps = _Samples()`, ..., `raw_stat_dicts = list()` are created
once when the class body executes, and every instance that never assigns
these names resolves them to the same objects. -/
structure ClassState where
  request_timestamps : Samples := {}
  request_latency : Samples := {}
  call_tries : Samples := {}
  response_latencies : Samples := {}
  first_token_latencies : Samples := {}
  token_latencies : Samples := {}
  context_tokens : Samples := {}
  generated_tokens : Samples := {}
  raw_stat_dicts : List RawRecord := []
deriving DecidableEq

/-- Per-instance attributes of a `_StatsAggregator`.  The counters declared
at class level (statsaggregator.py lines 46-50) are integers mutated only by
augmented assignment (`self.x += 1`), which reads the class default `0` and
then creates an instance attribute, so they behave per-instance starting at
`0`. -/
structure AggInstance where
  cfg : AggConfig
  processing_requests_count : Int := 0
  total_requests_count : Int := 0
  total_failed_count : Int := 0
  throttled_count : Int := 0
deriving DecidableEq

/-- The constructor `_StatsAggregator.__init__` (statsaggregator.py lines 63-96): stores the
configuration on the instance and initialises `_latest_metrics`; it does not
touch the class-level sample windows or `raw_stat_dicts`. -/
def statsAggregatorInit (cfg : AggConfig) : AggInstance :=
  { cfg := cfg }

/-- Python subtraction on possibly-`None` operands: `None` raises
`TypeError`. -/
def pySub : Option Int → Option Int → Except PyErr Int
  | some a, some b => .ok (a - b)
  | _, _ => .error .typeError

/-- The method `_StatsAggregator.aggregate_request` (statsaggregator.py lines 125-171).
The body inside the `try` mutates state in place, so mutations made before an
exception persist; the `except` handler only logs, and the raw record is
appended after the handler in every case.  The Python comparison
`stats.generated_tokens > 0` raises `TypeError` when the field is `None`, and
the float division for `token_latency` is modelled by integer division (no
claim depends on the quotient's value). -/
def aggregate_request (inst : AggInstance) (cs : ClassState) (stats : RequestStats) :
    AggInstance × ClassState :=
  let adj := inst.cfg.network_latency_adjustment
  let inst := { inst with
    processing_requests_count := inst.processing_requests_count - 1
    total_requests_count := inst.total_requests_count + 1 }
  let cs := { cs with
    call_tries := cs.call_tries.append stats.request_start_time (some stats.calls) }
  let result :=
    if stats.response_status_code ≠ 200 then
      let inst := { inst with total_failed_count := inst.total_failed_count + 1 }
      let inst :=
        if stats.response_status_code = 429 then
          { inst with throttled_count := inst.throttled_count + 1 }
        else inst
      (inst, cs)
    else
      match pySub stats.response_end_time stats.request_start_time with
      | .error _ => (inst, cs)
      | .ok d =>
        let request_latency := d - adj
        let cs := { cs with
          request_latency := cs.request_latency.append stats.request_start_time
            (some request_latency) }
        let cs := { cs with
          request_timestamps := cs.request_timestamps.append stats.request_start_time
            stats.request_start_time }
        match pySub stats.response_time stats.request_start_time with
        | .error _ => (inst, cs)
        | .ok d2 =>
          let cs := { cs with
            response_latencies := cs.response_latencies.append stats.request_start_time
              (some (d2 - adj)) }
          match pySub stats.first_token_time stats.request_start_time with
          | .error _ => (inst, cs)
          | .ok d3 =>
            let cs := { cs with
              first_token_latencies := cs.first_token_latencies.append stats.request_start_time
                (some (d3 - adj)) }
            match stats.generated_tokens with
            | none => (inst, cs)
            | some g =>
              if g > 0 then
                match pySub stats.response_end_time stats.first_token_time with
                | .error _ => (inst, cs)
                | .ok d4 =>
                  let cs := { cs with
                    token_latencies := cs.token_latencies.append stats.request_start_time
                      (some ((d4 - adj) / g)) }
                  let cs := { cs with
                    context_tokens := cs.context_tokens.append stats.request_start_time
                      (some stats.context_tokens) }
                  let cs := { cs with
                    generated_tokens := cs.generated_tokens.append stats.request_start_time
                      stats.generated_tokens }
                  (inst, cs)
              else
                let cs := { cs with
                  context_tokens := cs.context_tokens.append stats.request_start_time
                    (some stats.context_tokens) }
                let cs := { cs with
                  generated_tokens := cs.generated_tokens.append stats.request_start_time
                    stats.generated_tokens }
                (inst, cs)
  let inst := result.1
  let cs := result.2
  let cs := { cs with
    raw_stat_dicts := cs.raw_stat_dicts ++ [stats.as_dict inst.cfg.log_request_content] }
  (inst, cs)

/-- The method `_StatsAggregator._slide_window` (statsaggregator.py lines 247-255):
trims seven of the windows by `window_duration`.  Note that the
`request_latency` window is not in the list and is never trimmed. -/
def slide_window (now window_duration : Int) (cs : ClassState) : Except PyErr ClassState := do
  let ct ← cs.call_tries.trim_oldest now window_duration
  let rt ← cs.request_timestamps.trim_oldest now window_duration
  let rl ← cs.response_latencies.trim_oldest now window_duration
  let ftl ← cs.first_token_latencies.trim_oldest now window_duration
  let tl ← cs.token_latencies.trim_oldest now window_duration
  let ctx ← cs.context_tokens.trim_oldest now window_duration
  let gt ← cs.generated_tokens.trim_oldest now window_duration
  .ok { cs with
    call_tries := ct
    request_timestamps := rt
    response_latencies := rl
    first_token_latencies := ftl
    token_latencies := tl
    context_tokens := ctx
    generated_tokens := gt }

/-- The windows that `_slide_window` trims, in source order. -/
def ClassState.trimmedWindows (cs : ClassState) : List Samples :=
  [cs.call_tries, cs.request_timestamps, cs.response_latencies,
   cs.first_token_latencies, cs.token_latencies, cs.context_tokens,
   cs.generated_tokens]

/-- Python attribute lookup for `self.call_tries` on a `_StatsAggregator`
instance: the name is never assigned on the instance, so lookup falls through
the instance dictionary to the class attribute (statsaggregator.py line 54),
which is the same object for every instance. -/
def AggInstance.get_call_tries (_inst : AggInstance) (cs : ClassState) : Samples :=
  cs.call_tries

/-- Python attribute lookup for `self.raw_stat_dicts`, resolving to the class
attribute (statsaggregator.py line 61) shared by every instance. -/
def AggInstance.get_raw_stat_dicts (_inst : AggInstance) (cs : ClassState) : List RawRecord :=
  cs.raw_stat_dicts

/-! ## The requester (oairequester.py)

The HTTP session is modelled by a script: a list of behaviours, one consumed
per `session.post`.  Timestamps come from a clock threaded through the state;
each scripted event carries the time it takes (`dt`, in milliseconds, since
`retry-after-ms` is a millisecond header). -/

/-- The constant `MAX_RETRY_SECONDS = 60.0` (oairequester.py line 18), in milliseconds. -/
def MAX_RETRY_MS : Int := 60000

/-- Errors that `session.post` or the streamed body can raise: transport
errors carry no HTTP response.  (`aiohttp` raises `ClientResponseError` only
from `raise_for_status`, never from `post` or from reading the body.) -/
inductive TransportErr where
  | connectionError
  | timeoutError
deriving DecidableEq

/-- Map a transport error to the exception it raises. -/
def TransportErr.toPyErr : TransportErr → PyErr
  | .connectionError => .clientConnectionError
  | .timeoutError => .timeoutError

/-- A streamed `delta` object: the `role` and `content` keys, each possibly
absent.  `if not delta:` in Python tests the dictionary for emptiness. -/
structure Delta where
  role : Option String := none
  content : Option String := none
deriving DecidableEq

/-- Truthiness of the delta dictionary: falsy iff it has no keys. -/
def Delta.isEmpty (d : Delta) : Bool :=
  d.role.isNone && d.content.isNone

/-- One line of the streamed response body, classified the way
`_handle_response` (oairequester.py lines 148-192) dispatches on it. -/
inductive Line where
  /-- a line without the `data:` prefix: ignored -/
  | noise
  /-- the `data: [DONE]` sentinel: terminates the stream loop -/
  | done
  /-- a `data:` line whose payload fails `json.loads`: skipped -/
  | malformed
  /-- a decoded message whose `choices` is missing, empty or not a list: skipped -/
  | noChoices
  /-- a message with a nonempty `choices` list; the field is
  `choices[0].get("delta", {})`, `none` when the key is absent -/
  | frame (delta : Option Delta)
deriving DecidableEq

/-- A body line together with the time (ms) the async read of it takes. -/
structure StreamLine where
  dt : Int
  line : Line
deriving DecidableEq

/-- One scripted HTTP response. `retry_after_ms` models the
`retry-after-ms` header: `none` when absent, `some none` when present but
unparseable by `float(...)`, `some (some ms)` when it parses.  `bodyErr`, when
set, is raised by the stream after all lines in `body` have been read (it is
never reached if the loop breaks at the `[DONE]` sentinel). -/
structure HttpResponse where
  status : Int
  retry_after_ms : Option (Option Int) := none
  body : List StreamLine := []
  bodyErr : Option TransportErr := none
deriving DecidableEq

/-- The behaviour of one `session.post` call: either raise after `dt` ms or
return a response after `dt` ms. -/
inductive AttemptOutcome where
  | raises (dt : Int) (e : TransportErr)
  | responds (dt : Int) (r : HttpResponse)
deriving DecidableEq

/-- Observed outcome of one HTTP attempt, recorded for specification
purposes: the status the attempt obtained, or the exception it raised. -/
inductive AttemptResult where
  | gotStatus (status : Int)
  | raised (e : PyErr)
deriving DecidableEq

/-- Mutable state threaded through one `OAIRequester.call`: the monotonic
clock, the random backoff sleeps still to be drawn, the stats object being
filled in, and the observational trace of HTTP attempts. -/
structure CallState where
  clock : Int
  jitters : List Int := []
  stats : RequestStats := {}
  trace : List AttemptResult := []
deriving DecidableEq

/-- How the stream-parsing loop of `_handle_response` ended. -/
inductive LoopExit where
  /-- the `async for` ran out of lines normally -/
  | finished
  /-- the loop hit `break` at the `[DONE]` sentinel -/
  | broke
  /-- an exception escaped the loop body -/
  | errored (e : PyErr)
deriving DecidableEq

/-- The `async for line in response.content` loop of `_handle_response`
(oairequester.py lines 152-190), one constructor branch per `continue`
point.  The clock advances by each line's read time before the line is
handled. -/
def processLines (st : CallState) : List StreamLine → CallState × LoopExit
  | [] => (st, .finished)
  | sl :: rest =>
    let st := { st with clock := st.clock + sl.dt }
    match sl.line with
    | .noise => processLines st rest
    | .done => (st, .broke)
    | .malformed => processLines st rest
    | .noChoices => processLines st rest
    | .frame d? =>
      let delta := d?.getD {}
      if delta.isEmpty then processLines st rest
      else
        let stats := st.stats
        let stats :=
          if stats.first_token_time = none then
            { stats with first_token_time := some st.clock }
          else stats
        let stats :=
          if stats.generated_tokens = none then
            { stats with generated_tokens := some 0 }
          else stats
        match delta.role with
        | some r =>
          let stats := { stats with output_content := stats.output_content ++ [(r, "")] }
          processLines { st with stats := stats } rest
        | none =>
          match stats.output_content.getLast? with
          | none =>
            ({ st with stats := stats }, .errored .indexError)
          | some last =>
            let stats := { stats with
              output_content :=
                stats.output_content.dropLast ++ [(last.1, last.2 ++ delta.content.getD "")] }
            let stats := { stats with generated_tokens := stats.generated_tokens.map (· + 1) }
            processLines { st with stats := stats } rest

/-- The method `OAIRequester._handle_response` (oairequester.py lines 148-192): records
`response_time`, runs the stream loop, raises the stream's pending transport
error only if the loop ran to exhaustion, and sets `response_end_time` in the
`finally` block on every path. -/
def handle_response (r : HttpResponse) (st : CallState) : CallState × Option PyErr :=
  let st := { st with stats := { st.stats with response_time := some st.clock } }
  let (st, ex) := processLines st r.body
  let err : Option PyErr :=
    match ex with
    | .errored e => some e
    | .broke => none
    | .finished => r.bodyErr.map TransportErr.toPyErr
  let st := { st with stats := { st.stats with response_end_time := some st.clock } }
  (st, err)

/-- The `while` condition of the attempt loop (oairequester.py line 119):
`stats.calls == 0 or time.time() - stats.request_start_time < MAX_RETRY_SECONDS`.
Comparing against a `None` start time would raise `TypeError`. -/
def loopCond (st : CallState) : Except PyErr Bool :=
  if st.stats.calls = 0 then .ok true
  else
    match st.stats.request_start_time with
    | none => .error .typeError
    | some t => .ok (st.clock - t < MAX_RETRY_MS)

/-- The `while` loop of `OAIRequester._call` (oairequester.py lines 119-137).
Each iteration increments `calls` and performs one `session.post`, consuming
the head of the script (an exhausted script makes the post raise a connection
error).  A non-429 status breaks the loop; on 429 with `self.backoff` and a
parseable `retry-after-ms` header the loop sleeps that many milliseconds and
re-checks the loop condition; otherwise it falls through to the generic
backoff by breaking. -/
def call_loop (backoff : Bool) (script : List AttemptOutcome) (st : CallState) :
    List AttemptOutcome × CallState × Except PyErr HttpResponse :=
  let st := { st with stats := { st.stats with calls := st.stats.calls + 1 } }
  match script with
  | [] =>
    (([] : List AttemptOutcome),
      { st with trace := st.trace ++ [.raised .clientConnectionError] },
      .error .clientConnectionError)
  | .raises dt e :: rest =>
    (rest, { st with clock := st.clock + dt, trace := st.trace ++ [.raised e.toPyErr] },
      .error e.toPyErr)
  | .responds dt r :: rest =>
    let st := { st with clock := st.clock + dt,
                        trace := st.trace ++ [AttemptResult.gotStatus r.status] }
    let st := { st with stats := { st.stats with response_status_code := r.status } }
    if r.status ≠ 429 then (rest, st, .ok r)
    else if backoff then
      match r.retry_after_ms with
      | some (some ms) =>
        let st := { st with clock := st.clock + ms }
        match loopCond st with
        | .error e => (rest, st, .error e)
        | .ok true => call_loop backoff rest st
        | .ok false => (rest, st, .ok r)
      | some none => (rest, st, .ok r)
      | none => (rest, st, .ok r)
    else (rest, st, .ok r)

/-- The body of `OAIRequester._call` (oairequester.py lines 108-146): header
construction has no observable effect here; the start time is stamped, the
attempt loop runs, a non-200 final status stamps `response_end_time`,
`raise_for_status()` (only when `self.backoff`) raises `ClientResponseError`
for statuses of 400 and above, and a 200 status streams the body. -/
def call_inner (backoff : Bool) (script : List AttemptOutcome) (st : CallState) :
    List AttemptOutcome × CallState × Option PyErr :=
  let st := { st with stats := { st.stats with request_start_time := some st.clock } }
  match call_loop backoff script st with
  | (script, st, .error e) => (script, st, some e)
  | (script, st, .ok r) =>
    let st :=
      if r.status ≠ 200 then
        { st with stats := { st.stats with response_end_time := some st.clock } }
      else st
    if backoff ∧ 400 ≤ r.status then
      (script, st, some (.clientResponseError r.status))
    else if r.status = 200 then
      let (st, err) := handle_response r st
      (script, st, err)
    else (script, st, none)

/-- Whether an exception is an `aiohttp.ClientError`, the only exception
class the `backoff.on_exception` decorator (oairequester.py lines 103-107)
catches. -/
def backoff_retryable : PyErr → Bool
  | .clientResponseError _ => true
  | .clientConnectionError => true
  | _ => false

/-- The predicate `_terminal_http_code` (oairequester.py lines 58-60): the decorator's
giveup predicate `e.response.status != 429`.  A client error that carries no
response has no `response` attribute, so evaluating the predicate itself
raises `AttributeError`. -/
def backoff_giveup : PyErr → Except PyErr Bool
  | .clientResponseError s => .ok (s ≠ 429)
  | _ => .error .attributeError

/-- The `backoff.on_exception(backoff.expo, aiohttp.ClientError, ...)`
decorator around `_call` (oairequester.py lines 103-107): re-runs `_call`
when it raises a retryable (`ClientError`) non-giveup exception and the
elapsed time is still below `max_time`; the randomized exponential sleep is
drawn from the scripted `jitters`.  `fuel` bounds the recursion and is
instantiated with more retries than the session script can ever sustain. -/
def with_backoff (backoff : Bool) (start_time : Int) :
    Nat → List AttemptOutcome → CallState → List AttemptOutcome × CallState × Option PyErr
  | fuel, script, st =>
    match call_inner backoff script st with
    | (script, st, none) => (script, st, none)
    | (script, st, some e) =>
      if backoff_retryable e then
        match backoff_giveup e with
        | .error e2 => (script, st, some e2)
        | .ok true => (script, st, some e)
        | .ok false =>
          match fuel with
          | 0 => (script, st, some e)
          | fuel + 1 =>
            if st.clock - start_time < MAX_RETRY_MS then
              let st := { st with
                clock := st.clock + st.jitters.headD 0
                jitters := st.jitters.tail }
              with_backoff backoff start_time fuel script st
            else (script, st, some e)
      else (script, st, some e)

/-- The request body dictionary: only the keys the requester touches are
modelled.  `messages` is `none` when the key is absent. -/
structure RequestBody where
  messages : Option (List String) := none
  stream : Bool := false
deriving DecidableEq

/-- The `OAIRequester` construction state (oairequester.py lines 70-73); the key
and url only influence header contents, which have no observable effect in
this model. -/
structure OAIRequester where
  api_key : String := ""
  url : String := ""
  backoff : Bool := false
deriving DecidableEq

/-- The method `OAIRequester.call` (oairequester.py lines 75-101).  Reading
`body["messages"]` happens before the `try` block, so a body without that key
raises `KeyError` to the caller.  Inside the `try`, any exception from the
decorated `_call` is captured into `last_exception`, and the `finally` block
backfills `response_end_time` when `_call` did not set it.  The result pairs
the returned `RequestStats` with the observational attempt trace. -/
def oai_call (req : OAIRequester) (body : RequestBody) (script : List AttemptOutcome)
    (jitters : List Int) (clock0 : Int) :
    Except PyErr (RequestStats × List AttemptResult) :=
  match body.messages with
  | none => .error .keyError
  | some msgs =>
    let stats : RequestStats := { input_messages := some msgs }
    let _body := { body with stream := true }
    let st : CallState := { clock := clock0, jitters := jitters, stats := stats }
    let (_, st, err) := with_backoff req.backoff clock0 (script.length + 1) script st
    let stats :=
      match err with
      | some e => { st.stats with last_exception := some e }
      | none => st.stats
    let stats :=
      if stats.response_end_time = none then
        { stats with response_end_time := some st.clock }
      else stats
    .ok (stats, st.trace)

/-! ## The executor admission loop (asynchttpexecuter.py)

`AsyncHTTPExecuter._run` (lines 53-84) is abstracted to the size of its
`request_tasks` set.  Task handles stay in the set until an
`asyncio.wait(..., FIRST_COMPLETED)` replaces the set by the pending tasks,
so the size only changes at the wait and at `request_tasks.add`. -/

/-- One iteration of the admission loop (asynchttpexecuter.py lines 66-77):
after the rate gate, if the set size exceeds `max_concurrency` the loop waits
for at least one task to complete (`FIRST_COMPLETED`) and keeps only the
pending ones; then it creates and adds the next request task.
`extra_completed` is the environment's choice of how many tasks beyond the
guaranteed first one completed during the wait. -/
def executer_step (max_concurrency : Nat) (size : Nat) (extra_completed : Nat) : Nat :=
  (if size > max_concurrency then size - (extra_completed + 1) else size) + 1

/-- The sizes of the in-flight task set observed after each admission of the
loop, starting from the empty set, under an environment schedule `env` of
wait-completions. -/
def executer_sizes (max_concurrency : Nat) (env : List Nat) : List Nat :=
  env.scanl (executer_step max_concurrency) 0

/-! ## Window freshness (claim C2) -/

/-- A list of integer-keyed samples injected into the `Sample` representation
(all timestamps and values present). -/
def someSamples (l : List (Int × Int)) : List Sample :=
  l.map (fun p => (some p.1, some p.2))

/-- A window whose samples all carry present timestamps in non-decreasing
order; this is the shape produced when requests complete in start order. -/
def SortedSome (w : Samples) : Prop :=
  ∃ l : List (Int × Int), w.samples = someSamples l
    ∧ l.Pairwise (fun a b => a.1 ≤ b.1)

/-- Every sample of the window has a timestamp within `dur` of `now`. -/
def Fresh (now dur : Int) (w : Samples) : Prop :=
  ∀ s ∈ w.samples, ∀ t : Int, s.1 = some t → now - t ≤ dur

lemma trimOldest_fresh (now dur : Int) :
    ∀ l : List (Int × Int), l.Pairwise (fun a b => a.1 ≤ b.1) →
      ∃ l', trimOldest now dur (someSamples l) = .ok l'
        ∧ ∀ s ∈ l', ∀ t : Int, s.1 = some t → now - t ≤ dur := by
  intro l
  induction l with
  | nil => exact fun _ => ⟨[], rfl, by simp⟩
  | cons hd tl ih =>
    intro hp
    rw [List.pairwise_cons] at hp
    obtain ⟨hhd, htl⟩ := hp
    by_cases hcut : now - hd.1 > dur
    · obtain ⟨l', h1, h2⟩ := ih htl
      exact ⟨l', by simpa [someSamples, trimOldest, hcut] using h1, h2⟩
    · refine ⟨(some hd.1, some hd.2) :: someSamples tl,
        by simp [someSamples, trimOldest, hcut], ?_⟩
      intro s hs t hts
      rcases List.mem_cons.mp hs with rfl | hs
      · simp only [Option.some.injEq] at hts
        omega
      · simp only [someSamples, List.mem_map] at hs
        obtain ⟨p, hmem, rfl⟩ := hs
        simp only [Option.some.injEq] at hts
        have := hhd p hmem
        omega

lemma trim_oldest_fresh (now dur : Int) (w : Samples) (h : SortedSome w) :
    ∃ w', w.trim_oldest now dur = .ok w' ∧ Fresh now dur w' := by
  obtain ⟨l, hw, hp⟩ := h
  obtain ⟨l', h1, h2⟩ := trimOldest_fresh now dur l hp
  refine ⟨⟨l'⟩, ?_, h2⟩
  simp [Samples.trim_oldest, hw, h1, Except.map]

/-- State exhibiting the two failures of the pruning invariant: the
end-to-end `request_latency` window is never trimmed by `_slide_window`, and
out-of-order completions leave a stale sample behind a sufficiently recent
head in `request_timestamps` (eviction stops at the first recent head). -/
def csStale : ClassState :=
  { request_latency := ⟨[(some 0, some 5)]⟩,
    request_timestamps := ⟨[(some 95, some 95), (some 0, some 0)]⟩ }

/-- C2 counterexample: pruning at time 100 with a window duration of 10
leaves `csStale` completely unchanged, so both the never-trimmed
`request_latency` window and the stale sample of timestamp 0 sitting behind
the recent head (timestamp 95) of `request_timestamps` survive, with
100 - 0 > 10: not every retained sample is within the window duration of the
pruning time. -/
theorem slide_window_not_fresh :
    slide_window 100 10 csStale = .ok csStale
    ∧ ¬ Fresh 100 10 csStale.request_timestamps
    ∧ ¬ Fresh 100 10 csStale.request_latency := by
  refine ⟨by rfl, fun h => ?_, fun h => ?_⟩
  · have := h (some 0, some 0) (by simp [csStale]) 0 rfl
    omega
  · have := h (some 0, some 5) (by simp [csStale]) 0 rfl
    omega

/-- C2 (amended): for the seven windows that `_slide_window` actually trims
(`request_latency` is not among them), and provided each window's samples
carry present timestamps in non-decreasing order (true only when requests
complete in start order, since samples are keyed by `request_start_time` in
completion order), pruning succeeds and every retained sample's timestamp is
within `window_duration` of the pruning time. -/
theorem slide_window_fresh (now dur : Int) (cs : ClassState)
    (h : ∀ w ∈ cs.trimmedWindows, SortedSome w) :
    ∃ cs', slide_window now dur cs = .ok cs'
      ∧ ∀ w ∈ cs'.trimmedWindows, Fresh now dur w := by
  obtain ⟨w1, e1, f1⟩ := trim_oldest_fresh now dur cs.call_tries
    (h _ (by simp [ClassState.trimmedWindows]))
  obtain ⟨w2, e2, f2⟩ := trim_oldest_fresh now dur cs.request_timestamps
    (h _ (by simp [ClassState.trimmedWindows]))
  obtain ⟨w3, e3, f3⟩ := trim_oldest_fresh now dur cs.response_latencies
    (h _ (by simp [ClassState.trimmedWindows]))
  obtain ⟨w4, e4, f4⟩ := trim_oldest_fresh now dur cs.first_token_latencies
    (h _ (by simp [ClassState.trimmedWindows]))
  obtain ⟨w5, e5, f5⟩ := trim_oldest_fresh now dur cs.token_latencies
    (h _ (by simp [ClassState.trimmedWindows]))
  obtain ⟨w6, e6, f6⟩ := trim_oldest_fresh now dur cs.context_tokens
    (h _ (by simp [ClassState.trimmedWindows]))
  obtain ⟨w7, e7, f7⟩ := trim_oldest_fresh now dur cs.generated_tokens
    (h _ (by simp [ClassState.trimmedWindows]))
  refine ⟨ClassState.mk w2 cs.request_latency w1 w3 w4 w5 w6 w7 cs.raw_stat_dicts, ?_, ?_⟩
  · simp only [slide_window, e1, e2, e3, e4, e5, e6, e7]
    rfl
  · intro w hw
    simp only [ClassState.trimmedWindows, List.mem_cons, List.not_mem_nil, or_false] at hw
    rcases hw with rfl | rfl | rfl | rfl | rfl | rfl | rfl <;> assumption

/-- Concrete sorted window state used to exercise `slide_window_fresh`. -/
def csSortedW : ClassState :=
  { request_timestamps := ⟨[(some 95, some 95)]⟩ }

/-- Witness for C2 (amended) at a concrete sorted state. -/
theorem slide_window_fresh_witness :
    (∀ w ∈ csSortedW.trimmedWindows, SortedSome w)
    ∧ ∃ cs', slide_window 100 10 csSortedW = .ok cs'
        ∧ ∀ w ∈ cs'.trimmedWindows, Fresh 100 10 w := by
  have hs : ∀ w ∈ csSortedW.trimmedWindows, SortedSome w := by
    intro w hw
    simp only [ClassState.trimmedWindows, csSortedW, List.mem_cons,
      List.not_mem_nil, or_false] at hw
    rcases hw with rfl | rfl | rfl | rfl | rfl | rfl | rfl
    all_goals first
      | exact ⟨[(95, 95)], rfl, by simp⟩
      | exact ⟨[], rfl, List.Pairwise.nil⟩
  exact ⟨hs, slide_window_fresh 100 10 csSortedW hs⟩

/-! ## Aggregation of one record (claims C4, C5, C6) -/

/-- C4: for every `RequestStats` whose status code is not 200,
`aggregate_request` increments `total_failed_count`, increments
`throttled_count` exactly when the status is 429, and appends no sample to
the end-to-end, response, first-token or inter-token latency windows. -/
theorem aggregate_request_non200 (inst : AggInstance) (cs : ClassState)
    (stats : RequestStats) (h : stats.response_status_code ≠ 200) :
    ((aggregate_request inst cs stats).1.total_failed_count = inst.total_failed_count + 1)
    ∧ ((aggregate_request inst cs stats).1.throttled_count =
        inst.throttled_count + (if stats.response_status_code = 429 then 1 else 0))
    ∧ ((aggregate_request inst cs stats).2.request_latency = cs.request_latency)
    ∧ ((aggregate_request inst cs stats).2.response_latencies = cs.response_latencies)
    ∧ ((aggregate_request inst cs stats).2.first_token_latencies = cs.first_token_latencies)
    ∧ ((aggregate_request inst cs stats).2.token_latencies = cs.token_latencies) := by
  by_cases h429 : stats.response_status_code = 429 <;>
    simp [aggregate_request, h, h429]

/-- Concrete status-500 record for the C4 witness. -/
def stats500 : RequestStats := { response_status_code := 500 }

/-- Concrete aggregator instance used by several witnesses. -/
def instW : AggInstance := statsAggregatorInit { clients := 1 }

/-- Witness for C4 at a concrete 500 record. -/
theorem aggregate_request_non200_witness :
    (stats500.response_status_code ≠ 200)
    ∧ (((aggregate_request instW {} stats500).1.total_failed_count =
          instW.total_failed_count + 1)
      ∧ ((aggregate_request instW {} stats500).1.throttled_count =
          instW.throttled_count + (if stats500.response_status_code = 429 then 1 else 0))
      ∧ ((aggregate_request instW {} stats500).2.request_latency = Samples.mk [])
      ∧ ((aggregate_request instW {} stats500).2.response_latencies = Samples.mk [])
      ∧ ((aggregate_request instW {} stats500).2.first_token_latencies = Samples.mk [])
      ∧ ((aggregate_request instW {} stats500).2.token_latencies = Samples.mk [])) :=
  ⟨by decide, aggregate_request_non200 instW {} stats500 (by decide)⟩

/-- A status-200 record whose `generated_tokens` is `None` (a stream that
produced no delta frame still yields `first_token_time = None` in the
requester, but `aggregate_request` is specified over arbitrary records, so
the timing fields are populated here to isolate the `generated_tokens`
comparison). -/
def statsGenNone : RequestStats :=
  { request_start_time := some 0, response_status_code := 200, response_time := some 50,
    first_token_time := some 60, response_end_time := some 100,
    generated_tokens := none, calls := 1 }

/-- C5 counterexample: for a 200 record with `generated_tokens = None`, the
Python comparison `stats.generated_tokens > 0` raises `TypeError`, the
per-record handler catches it, and the `context_tokens` and
`generated_tokens` windows receive no sample — contradicting the claim that
every window other than inter-token latency is still appended to. -/
theorem aggregate_request_genNone_counterexample :
    statsGenNone.response_status_code = 200
    ∧ statsGenNone.generated_tokens = none
    ∧ (aggregate_request instW {} statsGenNone).2.generated_tokens = Samples.mk []
    ∧ (aggregate_request instW {} statsGenNone).2.context_tokens = Samples.mk []
    ∧ (aggregate_request instW {} statsGenNone).2.first_token_latencies ≠ Samples.mk [] := by
  decide

/-- C5 (amended): for a 200 record with all timing fields present, if
`generated_tokens` is `some 0` the inter-token-latency sample is skipped
while every other window (end-to-end latency, request timestamp, response
latency, first-token latency, context tokens, generated tokens) receives one
sample; if `generated_tokens` is `None`, the comparison `> 0` raises
`TypeError`, so besides inter-token latency the `context_tokens` and
`generated_tokens` windows are also left without a sample, while the windows
appended before the comparison (end-to-end latency, request timestamp,
response latency, first-token latency) still receive theirs. -/
theorem aggregate_request_200_gen (inst : AggInstance) (cs : ClassState)
    (stats : RequestStats) (t0 t1 t2 t3 : Int)
    (h200 : stats.response_status_code = 200)
    (hs : stats.request_start_time = some t0)
    (he : stats.response_end_time = some t1)
    (hr : stats.response_time = some t2)
    (hf : stats.first_token_time = some t3)
    (hgen : stats.generated_tokens = some 0 ∨ stats.generated_tokens = none) :
    ((aggregate_request inst cs stats).2.token_latencies = cs.token_latencies)
    ∧ ((aggregate_request inst cs stats).2.request_latency.samples.length =
        cs.request_latency.samples.length + 1)
    ∧ ((aggregate_request inst cs stats).2.request_timestamps.samples.length =
        cs.request_timestamps.samples.length + 1)
    ∧ ((aggregate_request inst cs stats).2.response_latencies.samples.length =
        cs.response_latencies.samples.length + 1)
    ∧ ((aggregate_request inst cs stats).2.first_token_latencies.samples.length =
        cs.first_token_latencies.samples.length + 1)
    ∧ (stats.generated_tokens = some 0 →
        ((aggregate_request inst cs stats).2.context_tokens.samples.length =
          cs.context_tokens.samples.length + 1)
        ∧ ((aggregate_request inst cs stats).2.generated_tokens.samples.length =
          cs.generated_tokens.samples.length + 1))
    ∧ (stats.generated_tokens = none →
        ((aggregate_request inst cs stats).2.context_tokens = cs.context_tokens)
        ∧ ((aggregate_request inst cs stats).2.generated_tokens = cs.generated_tokens)) := by
  rcases hgen with hg | hg <;>
    simp [aggregate_request, h200, hs, he, hr, hf, hg, pySub, Samples.append]

/-- Concrete status-200 record with `generated_tokens = 0` for the C5
witness. -/
def statsGenZero : RequestStats :=
  { statsGenNone with generated_tokens := some 0 }

/-- Witness for C5 (amended) at a concrete `generated_tokens = 0` record. -/
theorem aggregate_request_200_gen_witness :
    (statsGenZero.response_status_code = 200
      ∧ statsGenZero.request_start_time = some 0
      ∧ statsGenZero.response_end_time = some 100
      ∧ statsGenZero.response_time = some 50
      ∧ statsGenZero.first_token_time = some 60
      ∧ (statsGenZero.generated_tokens = some 0 ∨ statsGenZero.generated_tokens = none))
    ∧ (((aggregate_request instW {} statsGenZero).2.token_latencies = Samples.mk [])
      ∧ ((aggregate_request instW {} statsGenZero).2.request_latency.samples.length =
          (Samples.mk []).samples.length + 1)
      ∧ ((aggregate_request instW {} statsGenZero).2.request_timestamps.samples.length =
          (Samples.mk []).samples.length + 1)
      ∧ ((aggregate_request instW {} statsGenZero).2.response_latencies.samples.length =
          (Samples.mk []).samples.length + 1)
      ∧ ((aggregate_request instW {} statsGenZero).2.first_token_latencies.samples.length =
          (Samples.mk []).samples.length + 1)
      ∧ (statsGenZero.generated_tokens = some 0 →
          ((aggregate_request instW {} statsGenZero).2.context_tokens.samples.length =
            (Samples.mk []).samples.length + 1)
          ∧ ((aggregate_request instW {} statsGenZero).2.generated_tokens.samples.length =
            (Samples.mk []).samples.length + 1))
      ∧ (statsGenZero.generated_tokens = none →
          ((aggregate_request instW {} statsGenZero).2.context_tokens = Samples.mk [])
          ∧ ((aggregate_request instW {} statsGenZero).2.generated_tokens = Samples.mk []))) :=
  ⟨⟨by decide, by decide, by decide, by decide, by decide, Or.inl (by decide)⟩,
    aggregate_request_200_gen instW {} statsGenZero 0 100 50 60
      (by decide) (by decide) (by decide) (by decide) (by decide) (Or.inl (by decide))⟩

lemma aggregate_request_cfg (inst : AggInstance) (cs : ClassState) (stats : RequestStats) :
    (aggregate_request inst cs stats).1.cfg = inst.cfg := by
  unfold aggregate_request
  repeat' split
  all_goals rfl

lemma aggregate_request_raw (inst : AggInstance) (cs : ClassState) (stats : RequestStats) :
    (aggregate_request inst cs stats).2.raw_stat_dicts
      = cs.raw_stat_dicts ++ [stats.as_dict inst.cfg.log_request_content] := by
  unfold aggregate_request
  repeat' split
  all_goals rfl

/-- C6: every record aggregated contributes its `as_dict` raw dictionary to
`raw_stat_dicts` exactly once, in order, regardless of whether the internal
statistics computation for the record raised (the `try/except` swallows the
error before the unconditional append): folding any list of records appends
exactly their raw dictionaries. -/
theorem aggregate_request_raw_isolated (p : AggInstance × ClassState)
    (l : List RequestStats) :
    (l.foldl (fun q s => aggregate_request q.1 q.2 s) p).2.raw_stat_dicts
      = p.2.raw_stat_dicts
        ++ l.map (fun s => s.as_dict p.1.cfg.log_request_content) := by
  induction l generalizing p with
  | nil => simp
  | cons s t ih =>
    simp only [List.foldl_cons, List.map_cons]
    rw [ih, aggregate_request_raw, aggregate_request_cfg, List.append_assoc,
      List.singleton_append]

/-! ## Shared class-level aggregator state (claim C9) -/

/-- A minimal record aggregated through the first instance. -/
def statsShared : RequestStats := { request_start_time := some 0, calls := 1 }

/-- A second aggregator instance, constructed after the first one has run. -/
def instSecond : AggInstance := statsAggregatorInit { clients := 2 }

/-- C9 fails on the code: the sample windows and `raw_stat_dicts` are class
attributes, so after one record is aggregated through one instance, a second,
freshly constructed instance observes the same non-empty `call_tries` window
and the same non-empty raw-record list instead of fresh empty state.
(The specification itself flags the class-level containers as a correctness
bug, so this is recorded as a bug in the code, not as an amendment of the
claim.) -/
theorem aggregator_shares_class_state :
    ((instSecond.get_call_tries (aggregate_request instW {} statsShared).2).samples.length = 1)
    ∧ ((instSecond.get_raw_stat_dicts (aggregate_request instW {} statsShared).2).length = 1) := by
  decide

/-! ## Executor concurrency bound (claim C8) -/

lemma executer_step_bound (max_concurrency size c : Nat)
    (h : size ≤ max_concurrency + 1) :
    executer_step max_concurrency size c ≤ max_concurrency + 1 := by
  unfold executer_step
  split <;> omega

lemma scanl_executer_bound (max_concurrency : Nat) (env : List Nat) :
    ∀ size, size ≤ max_concurrency + 1 →
      ∀ s ∈ List.scanl (executer_step max_concurrency) size env,
        s ≤ max_concurrency + 1 := by
  induction env with
  | nil =>
    intro size hsz s hs
    simp only [List.scanl_nil, List.mem_singleton] at hs
    omega
  | cons c t ih =>
    intro size hsz s hs
    simp only [List.scanl_cons, List.singleton_append, List.mem_cons] at hs
    rcases hs with rfl | hs
    · exact hsz
    · exact ih _ (executer_step_bound max_concurrency size c hsz) s hs

/-- C8: the in-flight task set of the executor's admission loop never grows
beyond `max_concurrency + 1` — whenever the set size exceeds
`max_concurrency`, the loop first waits for at least one task to complete
(`FIRST_COMPLETED`) before creating the next task, so every size observed
after an admission is bounded by `max_concurrency + 1`. -/
theorem executer_sizes_bounded (max_concurrency : Nat) (env : List Nat) :
    ∀ s ∈ executer_sizes max_concurrency env, s ≤ max_concurrency + 1 :=
  scanl_executer_bound max_concurrency env 0 (by omega)

/-- Witness for C8 on a concrete schedule that saturates the bound. -/
theorem executer_sizes_bounded_witness :
    (3 ∈ executer_sizes 2 [0, 0, 0, 0]) ∧ 3 ≤ 2 + 1 :=
  ⟨by decide, executer_sizes_bounded 2 [0, 0, 0, 0] 3 (by decide)⟩

/-! ## Requester totality (claim C1) -/

/-- C1 counterexample: a request body without the `messages` key makes
`OAIRequester.call` raise `KeyError` to the caller, because
`stats.input_messages = body["messages"]` executes before the `try` block —
so `call` does not return a `RequestStats` for every payload body. -/
theorem oai_call_missing_messages_raises :
    oai_call {} {} [] [] 0 = .error .keyError := rfl

/-- C1 (amended): for every payload body that contains the `messages` key,
and any behaviour of the HTTP session (any script of responses, exceptions
and timings), `OAIRequester.call` returns a `RequestStats` without raising:
any exception escaping the retry loop is captured into `last_exception`, and
`response_end_time` is present on the returned stats. -/
theorem oai_call_never_raises (req : OAIRequester) (body : RequestBody)
    (script : List AttemptOutcome) (jitters : List Int) (clock0 : Int)
    (msgs : List String) (h : body.messages = some msgs) :
    ∃ stats tr, oai_call req body script jitters clock0 = .ok (stats, tr)
      ∧ stats.response_end_time.isSome = true
      ∧ ∀ e, (with_backoff req.backoff clock0 (script.length + 1) script
            { clock := clock0, jitters := jitters,
              stats := { input_messages := some msgs } }).2.2 = some e →
          stats.last_exception = some e := by
  unfold oai_call
  rw [h]
  rcases hwb : with_backoff req.backoff clock0 (script.length + 1) script
      { clock := clock0, jitters := jitters,
        stats := { input_messages := some msgs } } with ⟨sc, st1, err⟩
  simp only [hwb]
  cases err with
  | none =>
    refine ⟨_, _, rfl, ?_, ?_⟩
    · split
      · rfl
      · next hne => exact Option.isSome_iff_ne_none.mpr hne
    · intro e hE
      simp at hE
  | some e =>
    refine ⟨_, _, rfl, ?_, ?_⟩
    · split
      · rfl
      · next hne => exact Option.isSome_iff_ne_none.mpr hne
    · intro e' hE
      simp only [Option.some.injEq] at hE
      subst hE
      split <;> rfl

/-- Concrete body containing the `messages` key, for the C1 witness. -/
def bodyMsgs : RequestBody := { messages := some [] }

/-- Witness for C1 (amended) at a concrete body and an empty session
script (the post raises a connection error, which is captured). -/
theorem oai_call_never_raises_witness :
    (bodyMsgs.messages = some [])
    ∧ ∃ stats tr, oai_call {} bodyMsgs [] [] 0 = .ok (stats, tr)
        ∧ stats.response_end_time.isSome = true
        ∧ ∀ e, (with_backoff (OAIRequester.backoff {}) 0
              (List.length ([] : List AttemptOutcome) + 1) []
              { clock := 0, jitters := [],
                stats := { input_messages := some [] } }).2.2 = some e →
            stats.last_exception = some e :=
  ⟨rfl, oai_call_never_raises {} bodyMsgs [] [] 0 [] rfl⟩

/-! ## Stream parsing of the synthetic frame sequence (claim C3) -/

/-- The role-only opening delta of an assistant turn. -/
def roleDelta : Delta := { role := some "assistant" }

/-- A delta carrying only a content fragment. -/
def contentDelta (s : String) : Delta := { content := some s }

/-- The C3 synthetic stream body: role-only delta, content "A", content "B",
then the `[DONE]` sentinel; each line takes 10 ms to arrive. -/
def bodyC3 : List StreamLine :=
  [⟨10, .frame (some roleDelta)⟩,
   ⟨10, .frame (some (contentDelta "A"))⟩,
   ⟨10, .frame (some (contentDelta "B"))⟩,
   ⟨10, .done⟩]

/-- The C3 scripted 200 response, delivered 100 ms after the post. -/
def respC3 : HttpResponse := { status := 200, body := bodyC3 }

/-- The stats `call` computes for the C3 scenario: the post returns at
t = 100, the role-only frame arrives at t = 110, content "A" at t = 120,
content "B" at t = 130 and the sentinel at t = 140. -/
def statsC3 : RequestStats :=
  { request_start_time := some 0, response_status_code := 200,
    response_time := some 100, first_token_time := some 110,
    response_end_time := some 140, generated_tokens := some 2, calls := 1,
    input_messages := some [], output_content := [("assistant", "AB")] }

/-- C3 counterexample: on the synthetic stream, `generated_tokens = 2` and
the output content is "AB" as claimed, but `first_token_time` is 110 — the
arrival time of the role-only frame, which is the first nonempty delta — and
not 120, the arrival time of the first frame carrying actual content. -/
theorem oai_call_first_token_role_frame :
    oai_call {} { messages := some [] } [.responds 100 respC3] [] 0
      = .ok (statsC3, [.gotStatus 200])
    ∧ statsC3.first_token_time = some 110
    ∧ statsC3.first_token_time ≠ some 120 := by
  refine ⟨rfl, rfl, by decide⟩

/-- C3 (amended): on the synthetic stream `[role-only delta, content "A",
content "B", [DONE]]` the resulting stats have `generated_tokens = 2` and
output content "AB", and `first_token_time` is set at the first frame with a
nonempty delta — here the role-only frame (arrival 110), not the first
content frame (arrival 120). -/
theorem oai_call_stream_stats :
    oai_call {} { messages := some [] } [.responds 100 respC3] [] 0
      = .ok (statsC3, [.gotStatus 200])
    ∧ statsC3.generated_tokens = some 2
    ∧ statsC3.output_content = [("assistant", "AB")]
    ∧ statsC3.first_token_time = some 110 :=
  ⟨rfl, rfl, rfl, rfl⟩

/-! ## Content frame before any role frame (claim C10) -/

/-- Lines the stream loop of `_handle_response` skips without touching the
stats object: non-data lines, malformed JSON, missing choices, and frames
whose delta dictionary is absent or empty. -/
def Line.skippable : Line → Bool
  | .noise => true
  | .malformed => true
  | .noChoices => true
  | .frame none => true
  | .frame (some d) => d.isEmpty
  | .done => false

lemma processLines_skippable (rest : List StreamLine) :
    ∀ (pre : List StreamLine) (st : CallState),
      (∀ sl ∈ pre, sl.line.skippable = true) →
      ∃ ck, processLines st (pre ++ rest) = processLines { st with clock := ck } rest := by
  intro pre
  induction pre with
  | nil => exact fun st _ => ⟨st.clock, rfl⟩
  | cons sl t ih =>
    intro st hp
    have hsl := hp sl (by simp)
    have ht : ∀ x ∈ t, x.line.skippable = true := fun x hx => hp x (by simp [hx])
    rcases sl with ⟨dt, l⟩
    cases l with
    | noise => simpa only [List.cons_append, processLines] using ih _ ht
    | malformed => simpa only [List.cons_append, processLines] using ih _ ht
    | noChoices => simpa only [List.cons_append, processLines] using ih _ ht
    | done => simp [Line.skippable] at hsl
    | frame d? =>
      cases d? with
      | none =>
        simpa only [List.cons_append, processLines, Option.getD, Delta.isEmpty,
          Option.isNone, Bool.and_self, if_true] using ih _ ht
      | some d =>
        have hde : d.isEmpty = true := by simpa [Line.skippable] using hsl
        simpa only [List.cons_append, processLines, Option.getD, hde, if_true] using ih _ ht

lemma processLines_content_no_role (st : CallState) (pre rest : List StreamLine)
    (dtf : Int) (c : String) (hpre : ∀ sl ∈ pre, sl.line.skippable = true)
    (hout : st.stats.output_content = []) :
    ∃ ck stats', processLines st (pre ++ ⟨dtf, .frame (some (contentDelta c))⟩ :: rest)
        = ({ st with clock := ck, stats := stats' }, .errored .indexError)
      ∧ stats'.output_content = [] := by
  obtain ⟨ck, hck⟩ :=
    processLines_skippable (⟨dtf, .frame (some (contentDelta c))⟩ :: rest) pre st hpre
  rw [hck]
  by_cases hf : st.stats.first_token_time = none
  · by_cases hg : st.stats.generated_tokens = none
    · refine ⟨ck + dtf, { st.stats with first_token_time := some (ck + dtf), generated_tokens := some 0 }, ?_, by simp [hout]⟩
      simp [processLines, contentDelta, Delta.isEmpty, hf, hg, hout]
    · refine ⟨ck + dtf, { st.stats with first_token_time := some (ck + dtf) }, ?_, by simp [hout]⟩
      simp [processLines, contentDelta, Delta.isEmpty, hf, hg, hout]
  · by_cases hg : st.stats.generated_tokens = none
    · refine ⟨ck + dtf, { st.stats with generated_tokens := some 0 }, ?_, by simp [hout]⟩
      simp [processLines, contentDelta, Delta.isEmpty, hf, hg, hout]
    · refine ⟨ck + dtf, st.stats, ?_, hout⟩
      simp [processLines, contentDelta, Delta.isEmpty, hf, hg, hout]

/-- A scripted 200 response whose first nonempty delta frame carries content
but no role key, preceded by skippable lines only. -/
def respContentFirst (ra : Option (Option Int)) (be : Option TransportErr)
    (pre rest : List StreamLine) (dtf : Int) (c : String) : HttpResponse :=
  { status := 200, retry_after_ms := ra,
    body := pre ++ ⟨dtf, .frame (some (contentDelta c))⟩ :: rest, bodyErr := be }

lemma handle_response_content_no_role (st : CallState) (pre rest : List StreamLine)
    (dtf : Int) (c : String) (ra : Option (Option Int)) (be : Option TransportErr)
    (hpre : ∀ sl ∈ pre, sl.line.skippable = true)
    (hout : st.stats.output_content = []) :
    ∃ ck stats', handle_response (respContentFirst ra be pre rest dtf c) st
        = ({ st with clock := ck, stats := stats' }, some .indexError)
      ∧ stats'.output_content = []
      ∧ stats'.response_end_time = some ck := by
  obtain ⟨ck, stats1, h1, h2⟩ :=
    processLines_content_no_role
      { st with stats := { st.stats with response_time := some st.clock } }
      pre rest dtf c hpre hout
  refine ⟨ck, { stats1 with response_end_time := some ck }, ?_, by simp [h2], rfl⟩
  simp only [handle_response, respContentFirst, h1]

lemma call_inner_content_no_role (backoff : Bool) (st : CallState)
    (dt dtf : Int) (pre rest : List StreamLine) (c : String)
    (ra : Option (Option Int)) (be : Option TransportErr)
    (hpre : ∀ sl ∈ pre, sl.line.skippable = true)
    (hout : st.stats.output_content = []) :
    ∃ st', call_inner backoff [.responds dt (respContentFirst ra be pre rest dtf c)] st
        = ([], st', some .indexError)
      ∧ st'.stats.output_content = []
      ∧ st'.stats.response_end_time.isSome = true := by
  obtain ⟨ck, stats', hH, hO, hE⟩ :=
    handle_response_content_no_role
      { st with clock := st.clock + dt, stats := { st.stats with request_start_time := some st.clock, calls := st.stats.calls + 1, response_status_code := 200 }, trace := st.trace ++ [AttemptResult.gotStatus 200] }
      pre rest dtf c ra be hpre hout
  refine ⟨{ clock := ck, jitters := st.jitters, stats := stats', trace := st.trace ++ [AttemptResult.gotStatus 200] }, ?_, hO, by rw [hE]; rfl⟩
  simp only [call_inner, call_loop, respContentFirst]
  norm_num
  simp only [respContentFirst] at hH
  rw [hH]

/-- C10: for a 200 response whose first nonempty delta frame carries content
but no role key (any prefix of skippable lines before it), the expression
`stats.output_content[-1]` is evaluated on the still-empty output list, so
`OAIRequester.call` returns a `RequestStats` whose `last_exception` records
the `IndexError` and whose output content does not contain that frame's
fragment: appending content is well-defined only after a role-bearing delta
has opened an output entry. -/
theorem oai_call_content_without_role (req : OAIRequester) (msgs : List String)
    (clock0 dt dtf : Int) (pre rest : List StreamLine) (c : String)
    (ra : Option (Option Int)) (be : Option TransportErr)
    (hpre : ∀ sl ∈ pre, sl.line.skippable = true) :
    ∃ stats tr,
      oai_call req { messages := some msgs }
          [.responds dt (respContentFirst ra be pre rest dtf c)] [] clock0
        = .ok (stats, tr)
      ∧ stats.last_exception = some .indexError
      ∧ stats.output_content = [] := by
  obtain ⟨st', hinner, hout', hend⟩ :=
    call_inner_content_no_role req.backoff
      { clock := clock0, jitters := [], stats := { input_messages := some msgs } }
      dt dtf pre rest c ra be hpre rfl
  have hnc : ¬ st'.stats.response_end_time = none := by
    intro hnone
    rw [hnone] at hend
    simp at hend
  refine ⟨{ st'.stats with last_exception := some .indexError }, st'.trace, ?_, rfl, hout'⟩
  unfold oai_call
  simp only [with_backoff, hinner, backoff_retryable, Bool.false_eq_true, if_false]
  rw [if_neg hnc]

/-- Concrete skippable prefix for the C10 witness. -/
def preNoise : List StreamLine := [⟨5, .noise⟩]

/-- Witness for C10 at a concrete response whose only nonempty delta carries
content "X" and no role. -/
theorem oai_call_content_without_role_witness :
    (∀ sl ∈ preNoise, sl.line.skippable = true)
    ∧ ∃ stats tr,
        oai_call {} { messages := some [] }
            [.responds 100 (respContentFirst none none preNoise [] 10 "X")] [] 0
          = .ok (stats, tr)
        ∧ stats.last_exception = some .indexError
        ∧ stats.output_content = [] :=
  ⟨by decide,
    oai_call_content_without_role {} [] 0 100 10 preNoise [] "X" none none (by decide)⟩

/-! ## Retry discipline (claim C7) -/

/-- Every element of an attempt trace that is followed by a further attempt
obtained HTTP status 429. -/
def Chain429 (l : List AttemptResult) : Prop :=
  ∀ i, i + 1 < l.length → l.get? i = some (.gotStatus 429)

lemma chain429_singleton (a : AttemptResult) : Chain429 [a] := by
  intro i h
  simp only [List.length_singleton] at h
  omega

lemma chain429_cons (d : List AttemptResult) (h : Chain429 d) :
    Chain429 (.gotStatus 429 :: d) := by
  intro i hi
  cases i with
  | zero => rfl
  | succ j =>
    simp only [List.length_cons] at hi
    have hj := h j (by omega)
    simpa using hj

lemma chain429_append (d1 d2 : List AttemptResult)
    (h1 : ∀ a ∈ d1, a = .gotStatus 429) (h2 : Chain429 d2) :
    Chain429 (d1 ++ d2) := by
  induction d1 with
  | nil => simpa using h2
  | cons a t ih =>
    have ha := h1 a (by simp)
    subst ha
    rw [List.cons_append]
    exact chain429_cons _ (ih fun x hx => h1 x (by simp [hx]))

lemma chain429_getLast_all (d : List AttemptResult) (hc : Chain429 d)
    (hl : d.getLast? = some (.gotStatus 429)) :
    ∀ a ∈ d, a = .gotStatus 429 := by
  induction d with
  | nil => simp
  | cons b t ih =>
    intro a ha
    cases t with
    | nil =>
      rcases List.mem_singleton.mp ha with rfl
      simpa using hl
    | cons b2 u =>
      rcases List.mem_cons.mp ha with rfl | ha2
      · have h0 := hc 0 (by simp)
        simpa using h0
      · refine ih ?_ ?_ a ha2
        · intro i hi
          have := hc (i + 1) (by simp only [List.length_cons] at hi ⊢; omega)
          simpa using this
        · simpa using hl

lemma loopCond_error_typeError (st : CallState) (e : PyErr)
    (h : loopCond st = .error e) : e = .typeError := by
  unfold loopCond at h
  split at h
  · simp at h
  · split at h <;> simp_all

lemma giveup_false_429 (e : PyErr) (h : backoff_giveup e = .ok false) :
    e = .clientResponseError 429 := by
  cases e <;> simp_all [backoff_giveup]

lemma processLines_trace (st : CallState) (ls : List StreamLine) :
    (processLines st ls).1.trace = st.trace := by
  induction ls generalizing st with
  | nil => rfl
  | cons sl rest ih =>
    rcases sl with ⟨dt, l⟩
    cases l with
    | noise => simpa only [processLines] using ih _
    | done => rfl
    | malformed => simpa only [processLines] using ih _
    | noChoices => simpa only [processLines] using ih _
    | frame d? =>
      simp only [processLines]
      split
      · exact ih _
      · split
        · exact ih _
        · split
          · rfl
          · exact ih _

lemma processLines_errored (st : CallState) (ls : List StreamLine) (e : PyErr)
    (h : (processLines st ls).2 = .errored e) : e = .indexError := by
  induction ls generalizing st with
  | nil => simp [processLines] at h
  | cons sl rest ih =>
    rcases sl with ⟨dt, l⟩
    cases l with
    | noise => exact ih _ (by simpa only [processLines] using h)
    | done => simp [processLines] at h
    | malformed => exact ih _ (by simpa only [processLines] using h)
    | noChoices => exact ih _ (by simpa only [processLines] using h)
    | frame d? =>
      simp only [processLines] at h
      split at h
      · exact ih _ h
      · split at h
        · exact ih _ h
        · split at h
          · simp only [Prod.snd] at h
            cases h
            rfl
          · exact ih _ h

lemma handle_response_trace (r : HttpResponse) (st : CallState) :
    (handle_response r st).1.trace = st.trace := by
  simp only [handle_response]
  rw [processLines_trace]

lemma handle_response_no_cre (r : HttpResponse) (st : CallState) (s : Int)
    (h : (handle_response r st).2 = some (.clientResponseError s)) : False := by
  simp only [handle_response] at h
  split at h
  · next e heq =>
    have := processLines_errored _ _ _ heq
    subst this
    simp at h
  · simp at h
  · rcases hb : r.bodyErr with _ | a
    · simp [hb] at h
    · cases a <;> simp [hb, TransportErr.toPyErr] at h

lemma getLast?_cons_of_ne (a : AttemptResult) (d : List AttemptResult) (hd : d ≠ []) :
    (a :: d).getLast? = d.getLast? := by
  cases d with
  | nil => exact absurd rfl hd
  | cons b t => exact List.getLast?_cons_cons

lemma call_loop_trace (backoff : Bool) (script : List AttemptOutcome) (st : CallState) :
    ∃ d, (call_loop backoff script st).2.1.trace = st.trace ++ d
      ∧ d ≠ []
      ∧ Chain429 d
      ∧ (∀ r, (call_loop backoff script st).2.2 = .ok r →
          d.getLast? = some (.gotStatus r.status))
      ∧ (∀ e s, (call_loop backoff script st).2.2 = .error e →
          e ≠ .clientResponseError s) := by
  induction script, st using call_loop.induct backoff with
  | case1 st =>
    refine ⟨[.raised .clientConnectionError], by simp [call_loop], by simp,
      chain429_singleton _, ?_, ?_⟩
    · intro r hr
      simp [call_loop] at hr
    · intro e s he
      simp [call_loop] at he
      subst he
      simp
  | case2 st dt e rest =>
    refine ⟨[.raised e.toPyErr], by simp [call_loop], by simp,
      chain429_singleton _, ?_, ?_⟩
    · intro r hr
      simp [call_loop] at hr
    · intro e2 s he
      simp [call_loop] at he
      subst he
      cases e <;> simp [TransportErr.toPyErr]
  | case3 st dt r rest h429 =>
    refine ⟨[.gotStatus r.status], by simp [call_loop, h429], by simp,
      chain429_singleton _, ?_, ?_⟩
    · intro r' hr
      simp [call_loop, h429] at hr
      subst hr
      rfl
    · intro e s he
      simp [call_loop, h429] at he
  | case4 st s1 dt r rest s2 s3 h429 hb ms hra s4 e hlc =>
    have heq : r.status = 429 := not_not.mp h429
    have het : e = .typeError := loopCond_error_typeError _ _ hlc
    unfold s4 s3 s2 s1 at hlc
    rw [heq] at hlc
    dsimp only at hlc
    refine ⟨[.gotStatus 429], by simp [call_loop, heq, hb, hra, hlc], by simp,
      chain429_singleton _, ?_, ?_⟩
    · intro r' hr
      simp [call_loop, heq, hb, hra, hlc] at hr
    · intro e2 s he
      simp [call_loop, heq, hb, hra, hlc] at he
      simp_all
  | case5 st s1 dt r rest s2 s3 h429 hb ms hra s4 hlc ih =>
    have heq : r.status = 429 := not_not.mp h429
    unfold s4 s3 s2 s1 at hlc ih
    rw [heq] at hlc ih
    dsimp only at hlc ih
    rw [hb] at ih
    obtain ⟨d, hd, hne, hch, hok, herr⟩ := ih
    refine ⟨.gotStatus 429 :: d, ?_, by simp, chain429_cons _ hch, ?_, ?_⟩
    · simp [call_loop, heq, hb, hra, hlc, hd]
    · intro r' hr
      rw [getLast?_cons_of_ne _ _ hne]
      refine hok r' ?_
      simp only [call_loop, heq, hb, hra, hlc] at hr
      simpa using hr
    · intro e2 s he
      refine herr e2 s ?_
      simp only [call_loop, heq, hb, hra, hlc] at he
      simpa using he
  | case6 st s1 dt r rest s2 s3 h429 hb ms hra s4 hlc =>
    have heq : r.status = 429 := not_not.mp h429
    unfold s4 s3 s2 s1 at hlc
    rw [heq] at hlc
    dsimp only at hlc
    refine ⟨[.gotStatus 429], by simp [call_loop, heq, hb, hra, hlc], by simp,
      chain429_singleton _, ?_, ?_⟩
    · intro r' hr
      simp [call_loop, heq, hb, hra, hlc] at hr
      subst hr
      simp [heq]
    · intro e s he
      simp [call_loop, heq, hb, hra, hlc] at he
  | case7 st dt r rest h429 hb hra =>
    have heq : r.status = 429 := not_not.mp h429
    refine ⟨[.gotStatus 429], by simp [call_loop, heq, hb, hra], by simp,
      chain429_singleton _, ?_, ?_⟩
    · intro r' hr
      simp [call_loop, heq, hb, hra] at hr
      subst hr
      simp [heq]
    · intro e s he
      simp [call_loop, heq, hb, hra] at he
  | case8 st dt r rest h429 hb hra =>
    have heq : r.status = 429 := not_not.mp h429
    refine ⟨[.gotStatus 429], by simp [call_loop, heq, hb, hra], by simp,
      chain429_singleton _, ?_, ?_⟩
    · intro r' hr
      simp [call_loop, heq, hb, hra] at hr
      subst hr
      simp [heq]
    · intro e s he
      simp [call_loop, heq, hb, hra] at he
  | case9 st dt r rest h429 hb =>
    have heq : r.status = 429 := not_not.mp h429
    refine ⟨[.gotStatus 429], by simp [call_loop, heq, hb], by simp,
      chain429_singleton _, ?_, ?_⟩
    · intro r' hr
      simp [call_loop, heq, hb] at hr
      subst hr
      simp [heq]
    · intro e s he
      simp [call_loop, heq, hb] at he

lemma call_inner_trace (backoff : Bool) (script : List AttemptOutcome) (st : CallState) :
    ∃ d, (call_inner backoff script st).2.1.trace = st.trace ++ d
      ∧ Chain429 d
      ∧ ((call_inner backoff script st).2.2 = some (.clientResponseError 429) →
          d ≠ [] ∧ d.getLast? = some (.gotStatus 429)) := by
  obtain ⟨d, hd, hne, hch, hok, herr⟩ := call_loop_trace backoff script
    { st with stats := { st.stats with request_start_time := some st.clock } }
  rcases hcl : call_loop backoff script
    { st with stats := { st.stats with request_start_time := some st.clock } } with ⟨sc, st1, res⟩
  rw [hcl] at hd hok herr
  have hd' : st1.trace = st.trace ++ d := by simpa using hd
  refine ⟨d, ?_, hch, ?_⟩
  · simp only [call_inner, hcl]
    cases res with
    | error e => simpa using hd'
    | ok r =>
      repeat' split
      all_goals simp_all [handle_response_trace]
  · intro hcre
    cases res with
    | error e =>
      simp only [call_inner, hcl] at hcre
      simp at hcre
      exact absurd hcre (herr e 429 rfl)
    | ok r =>
      simp only [call_inner, hcl] at hcre
      split at hcre
      · simp only [Option.some.injEq, PyErr.clientResponseError.injEq] at hcre
        refine ⟨hne, ?_⟩
        rw [← hcre]
        exact hok r rfl
      · split at hcre
        · exact absurd hcre (fun hx => handle_response_no_cre r _ 429 hx)
        · simp at hcre

lemma with_backoff_trace (backoff : Bool) (t0 : Int) (fuel : Nat)
    (script : List AttemptOutcome) (st : CallState) :
    ∃ d, (with_backoff backoff t0 fuel script st).2.1.trace = st.trace ++ d
      ∧ Chain429 d := by
  induction fuel generalizing script st with
  | zero =>
    obtain ⟨d1, hd1, hc1, hcre⟩ := call_inner_trace backoff script st
    rcases hci : call_inner backoff script st with ⟨sc, st1, err⟩
    rw [hci] at hd1
    have hd1' : st1.trace = st.trace ++ d1 := by simpa using hd1
    unfold with_backoff
    rw [hci]
    cases err with
    | none => exact ⟨d1, hd1', hc1⟩
    | some e =>
      by_cases hre : backoff_retryable e = true
      · rcases hgv : backoff_giveup e with e2 | b
        · simp [hre, hgv]
          exact ⟨d1, hd1', hc1⟩
        · cases b
          · simp [hre, hgv]
            exact ⟨d1, hd1', hc1⟩
          · simp [hre, hgv]
            exact ⟨d1, hd1', hc1⟩
      · simp [hre]
        exact ⟨d1, hd1', hc1⟩
  | succ n ih =>
    obtain ⟨d1, hd1, hc1, hcre⟩ := call_inner_trace backoff script st
    rcases hci : call_inner backoff script st with ⟨sc, st1, err⟩
    rw [hci] at hd1 hcre
    have hd1' : st1.trace = st.trace ++ d1 := by simpa using hd1
    unfold with_backoff
    rw [hci]
    cases err with
    | none => exact ⟨d1, hd1', hc1⟩
    | some e =>
      by_cases hre : backoff_retryable e = true
      · rcases hgv : backoff_giveup e with e2 | b
        · simp [hre, hgv]
          exact ⟨d1, hd1', hc1⟩
        · cases b
          · have he429 : e = .clientResponseError 429 := giveup_false_429 e hgv
            have hlast : d1 ≠ [] ∧ d1.getLast? = some (.gotStatus 429) := by
              refine hcre ?_
              rw [he429]
            have hall : ∀ a ∈ d1, a = .gotStatus 429 :=
              chain429_getLast_all d1 hc1 hlast.2
            simp only [hre, hgv, if_true]
            split
            · obtain ⟨d2, hd2, hc2⟩ := ih sc
                { st1 with clock := st1.clock + st1.jitters.headD 0, jitters := st1.jitters.tail }
              refine ⟨d1 ++ d2, ?_, chain429_append d1 d2 hall hc2⟩
              rw [hd2]
              simp [hd1']
            · exact ⟨d1, hd1', hc1⟩
          · simp [hre, hgv]
            exact ⟨d1, hd1', hc1⟩
      · simp [hre]
        exact ⟨d1, hd1', hc1⟩

/-- C7: for every run of `OAIRequester.call`, any HTTP attempt that is
followed by a further HTTP attempt obtained status 429: an attempt whose
response status is neither 200 nor 429 (or that raised) is the last attempt
of the request, and 429 is the only status after which another attempt can
be made (via the retry-after sleep or the backoff decorator). -/
theorem oai_call_only_429_retried (req : OAIRequester) (body : RequestBody)
    (script : List AttemptOutcome) (jitters : List Int) (clock0 : Int)
    (stats : RequestStats) (tr : List AttemptResult)
    (h : oai_call req body script jitters clock0 = .ok (stats, tr)) :
    ∀ i, i + 1 < tr.length → tr.get? i = some (.gotStatus 429) := by
  unfold oai_call at h
  rcases hm : body.messages with _ | msgs
  · rw [hm] at h
    exact absurd h (by simp)
  · rw [hm] at h
    dsimp only at h
    obtain ⟨d, hd, hc⟩ := with_backoff_trace req.backoff clock0 (script.length + 1) script
      { clock := clock0, jitters := jitters, stats := { input_messages := some msgs } }
    rcases hwb : with_backoff req.backoff clock0 (script.length + 1) script
      { clock := clock0, jitters := jitters, stats := { input_messages := some msgs } }
      with ⟨sc, st1, err⟩
    rw [hwb] at h hd
    have hd' : st1.trace = d := by simpa using hd
    have htr : tr = st1.trace := by
      cases err with
      | none =>
        simp only [Except.ok.injEq, Prod.mk.injEq] at h
        exact h.2.symm
      | some e =>
        simp only [Except.ok.injEq, Prod.mk.injEq] at h
        exact h.2.symm
    rw [htr, hd']
    exact hc

/-- Concrete requester with backoff enabled, for the C7 witness. -/
def reqB : OAIRequester := { backoff := true }

/-- A session script: a 429 with a parseable retry-after header, then a 200. -/
def scriptRetry : List AttemptOutcome :=
  [.responds 10 { status := 429, retry_after_ms := some (some 50) },
   .responds 10 { status := 200, body := [⟨1, .done⟩] }]

/-- The stats the C7 witness run produces. -/
def statsRetry : RequestStats :=
  { request_start_time := some 0, response_status_code := 200,
    response_time := some 70, response_end_time := some 71, calls := 2,
    input_messages := some [] }

/-- Witness for C7 on a run whose first attempt got 429 and was retried. -/
theorem oai_call_only_429_retried_witness :
    (oai_call reqB bodyMsgs scriptRetry [] 0
      = .ok (statsRetry, [.gotStatus 429, .gotStatus 200]))
    ∧ 0 + 1 < ([AttemptResult.gotStatus 429, .gotStatus 200] : List AttemptResult).length
    ∧ ([AttemptResult.gotStatus 429, .gotStatus 200] : List AttemptResult).get? 0
        = some (.gotStatus 429) :=
  ⟨rfl, by decide,
    oai_call_only_429_retried reqB bodyMsgs scriptRetry [] 0 statsRetry
      [.gotStatus 429, .gotStatus 200] rfl 0 (by decide)⟩

end Bench
